import Mathlib

/-!
Shallow embedding of the connection-and-dispatch engine of
`packages/mcp2rest/src/gateway/Gateway.ts` (the `Gateway` class), together
with proofs about its reconnect backoff, dispatch, registry and lifecycle
behaviour.

Modelling conventions:
* The `Map` fields (`servers`, `reconnectTimers`) are association lists keyed
  by server name (`alGet` / `alSet` / `alErase` mirror `get`/`set`/`delete`).
* The MCP SDK `Client` object is modelled by the `hasClient` flag (`client`
  is either an object or `null` in the source; no other property of the
  client object is consulted by the gateway logic).
* Real I/O performed by `client.connect` / `client.listTools` is supplied as
  an explicit `ConnectEnv` argument describing how the handshake turns out;
  `client.callTool`'s behaviour is supplied as an invoke duration plus an
  optional rejection message.
* `Date` timestamp fields (`lastConnected`) are omitted: no verified claim
  mentions them.  The `package` config field is spelled `pkg`.
* A `setTimeout` timer is modelled as a pending entry of `reconnectTimers`
  carrying its delay; firing consumes the entry (in JS the spent handle
  lingers in the map, but it is observationally dead: `clearTimeout` on it
  is a no-op and it can never fire again).
-/

namespace Gw

/-- Transport kinds, from `getTransportType`'s return type. -/
inductive TransportType
  | stdio
  | http
  deriving DecidableEq, Repr

/-- `ServerConfig` (fields actually read by `Gateway.ts`); `package` is
spelled `pkg`. -/
structure ServerConfig where
  transport : Option TransportType := none
  url : Option String := none
  pkg : Option String := none
  args : List String := []
  deriving DecidableEq, Repr

/-- The `status` union of `ServerState`. -/
inductive Status
  | connecting
  | connected
  | disconnected
  | reconnecting
  | error
  deriving DecidableEq, Repr

/-- A tool, as stored by `connectServer` from the `listTools` response; the
JSON `inputSchema` is kept opaquely as its serialized text. -/
structure Tool where
  name : String
  description : Option String := none
  inputSchema : String := ""
  deriving DecidableEq, Repr

/-- `ServerState`: the per-server mutable record kept in `this.servers`. -/
structure ServerState where
  config : ServerConfig
  status : Status
  hasClient : Bool
  tools : List Tool
  reconnectAttempts : Nat
  lastError : Option String := none
  validationWarning : Option String := none
  deriving DecidableEq, Repr

/-- The `ErrorCode`-tagged errors thrown by the gateway (the source encodes
them as `"CODE: message"` strings; we keep them structured). -/
inductive GatewayFailure
  | invalidConfig (msg : String)
  | invalidUrl (msg : String)
  | connectFailed (msg : String)
  | serverNotFound (name : String)
  | serverDisconnected (name : String)
  | serverAlreadyExists (name : String)
  | serverAddFailed (msg : String)
  | toolTimeout (msg : String)
  | toolExecutionDenied (msg : String)
  deriving DecidableEq, Repr

/-- The `error.message` string carried by a thrown `GatewayFailure`
(`"ERROR_CODE: message"` in the source). -/
def GatewayFailure.message : GatewayFailure → String
  | .invalidConfig m => "INVALID_CONFIG: " ++ m
  | .invalidUrl m => "INVALID_URL: " ++ m
  | .connectFailed m => m
  | .serverNotFound n => "SERVER_NOT_FOUND: Server " ++ n ++ " not found"
  | .serverDisconnected n => "SERVER_DISCONNECTED: Server " ++ n ++ " is not connected"
  | .serverAlreadyExists n => "SERVER_ALREADY_EXISTS: Server " ++ n ++ " already exists"
  | .serverAddFailed m => "SERVER_ADD_FAILED: " ++ m
  | .toolTimeout m => "TOOL_TIMEOUT: " ++ m
  | .toolExecutionDenied m => "TOOL_EXECUTION_ERROR: " ++ m

/-- Association-list lookup, mirroring `Map.get`. -/
def alGet {α : Type} : List (String × α) → String → Option α
  | [], _ => none
  | (k, v) :: rest, key => if k = key then some v else alGet rest key

/-- Association-list update, mirroring `Map.set`. -/
def alSet {α : Type} : List (String × α) → String → α → List (String × α)
  | [], key, v => [(key, v)]
  | (k, w) :: rest, key, v =>
      if k = key then (key, v) :: rest else (k, w) :: alSet rest key v

/-- Association-list removal, mirroring `Map.delete`. -/
def alErase {α : Type} : List (String × α) → String → List (String × α)
  | [], _ => []
  | (k, w) :: rest, key =>
      if k = key then alErase rest key else (k, w) :: alErase rest key

/-- The whole mutable state of a `Gateway` instance: the `servers` map, the
`reconnectTimers` map (pending timer per name, holding its delay in ms) and
the loaded `config.gateway.timeout`. -/
structure GatewayState where
  servers : List (String × ServerState) := []
  reconnectTimers : List (String × Nat) := []
  gatewayTimeout : Nat := 30000
  deriving DecidableEq, Repr

/-- `MAX_RECONNECT_ATTEMPTS = 10`. -/
def MAX_RECONNECT_ATTEMPTS : Nat := 10

/-- `MAX_BACKOFF_DELAY = 30000`. -/
def MAX_BACKOFF_DELAY : Nat := 30000

/-- A fresh gateway; `getDefaultConfig()` supplies `timeout: 30000`. -/
def gateway0 : GatewayState := {}

/-- Does `l` start with `pat`? (helper for `string.includes`). -/
def startsWithList : List Char → List Char → Bool
  | _, [] => true
  | [], _ :: _ => false
  | c :: cs, p :: ps => c = p && startsWithList cs ps

/-- Does `l` contain `pat` as a contiguous run? (helper for
`string.includes`). -/
def containsList : List Char → List Char → Bool
  | l, pat =>
    if startsWithList l pat then true
    else
      match l with
      | [] => false
      | _ :: cs => containsList cs pat

/-- JavaScript `s.includes(pat)`. -/
def containsSub (s pat : String) : Bool :=
  containsList s.toList pat.toList

/-- The Zod-validation-error sniffing of `connectServer`'s catch block:
`errorStr.includes('Expected array') || ... || includes('"code": "invalid_type"')`. -/
def isValidationError (msg : String) : Bool :=
  containsSub msg "Expected array" ||
  containsSub msg "Expected object" ||
  containsSub msg "invalid_type" ||
  containsSub msg "ZodError" ||
  containsSub msg "\"code\":\"invalid_type\"" ||
  containsSub msg "\"code\": \"invalid_type\""

/-- How the I/O of one connect attempt turns out: either
`client.connect` + `client.listTools` both succeed with `tools`, or an
error with message `msg` is thrown, in which case `retryTools` is the result
of the second best-effort `listTools` call (`none` = it too fails), consulted
only when `msg` is classified as a validation error. -/
inductive HandshakeOutcome
  | ok (tools : List Tool)
  | failed (msg : String) (retryTools : Option (List Tool))
  deriving DecidableEq, Repr

/-- The environment of one connect attempt: whether `new URL(config.url)`
parses, and how the handshake I/O turns out. -/
structure ConnectEnv where
  urlParses : Bool := true
  outcome : HandshakeOutcome
  deriving DecidableEq, Repr

/-- `Gateway.getTransportType`. -/
def getTransportType (config : ServerConfig) : Except GatewayFailure TransportType :=
  match config.transport with
  | some t => .ok t
  | none =>
    if config.url.isSome then .ok .http
    else if config.pkg.isSome then .ok .stdio
    else .error (.invalidConfig
      "Cannot determine transport type - must specify either url or package")

/-- `Gateway.clearReconnectTimer`. -/
def clearReconnectTimer (gs : GatewayState) (name : String) : GatewayState :=
  { gs with reconnectTimers := alErase gs.reconnectTimers name }

/-- The delay computed by `scheduleReconnect` when the attempt counter reads
`attempts`: `Math.min(1000 * Math.pow(2, attempts), MAX_BACKOFF_DELAY)`. -/
def backoffDelay (attempts : Nat) : Nat :=
  min (1000 * 2 ^ attempts) MAX_BACKOFF_DELAY

/-- `Gateway.scheduleReconnect`: gives up into `error` once the counter
reaches `MAX_RECONNECT_ATTEMPTS`, otherwise increments the counter, marks
the server `reconnecting` and arms a backoff timer. -/
def scheduleReconnect (gs : GatewayState) (name : String) : GatewayState :=
  match alGet gs.servers name with
  | none => gs
  | some st =>
    if MAX_RECONNECT_ATTEMPTS ≤ st.reconnectAttempts then
      let st := { st with status := Status.error,
                          lastError := some "Maximum reconnection attempts exceeded" }
      { gs with servers := alSet gs.servers name st }
    else
      let delay := backoffDelay st.reconnectAttempts
      let st := { st with reconnectAttempts := st.reconnectAttempts + 1,
                          status := .reconnecting }
      let gs := { gs with servers := alSet gs.servers name st }
      let gs := clearReconnectTimer gs name
      { gs with reconnectTimers := alSet gs.reconnectTimers name delay }

/-- The state `connectServer` initializes for a not-yet-present name. -/
def initialServerState (config : ServerConfig) : ServerState :=
  { config := config, status := .disconnected, hasClient := false,
    tools := [], reconnectAttempts := 0 }

/-- The server-state updates of `connectServer`'s success path: store the
client, replace the tool list wholesale, mark `connected`, zero the attempt
counter, record or clear the validation warning. -/
def connectedState (st0 : ServerState) (tools : List Tool)
    (warning : Option String) : ServerState :=
  { st0 with hasClient := true, tools := tools, status := Status.connected,
             reconnectAttempts := 0, validationWarning := warning }

/-- The tail of `connectServer`'s success path: apply `connectedState` to the
entry and clear any pending reconnect timer. -/
def connectOk (gs : GatewayState) (name : String) (st0 : ServerState)
    (tools : List Tool) (warning : Option String) :
    GatewayState × Except GatewayFailure Unit :=
  let st := connectedState st0 tools warning
  (clearReconnectTimer { gs with servers := alSet gs.servers name st } name, .ok ())

/-- `connectServer`'s catch block: mark the entry `error`, record
`lastError = error.message`, and rethrow. -/
def connectFail (gs : GatewayState) (name : String) (st0 : ServerState)
    (e : GatewayFailure) : GatewayState × Except GatewayFailure Unit :=
  let st := { st0 with status := Status.error, lastError := some e.message }
  ({ gs with servers := alSet gs.servers name st }, .error e)

/-- The advisory string recorded on a degraded connect. -/
def validationWarningMsg : String :=
  "Schema validation warning: Server may not be fully MCP-compliant"

/-- `Gateway.connectServer`: determine the transport (throwing before any
state is created if the config is ambiguous), get-or-initialize the server
state, build the transport (an http config must carry a parseable `url`),
then run the handshake; a validation-style handshake error degrades into a
`connected` state with a warning and the best-effort tool list, any other
error lands in the catch block. -/
def connectServer (gs : GatewayState) (name : String) (config : ServerConfig)
    (env : ConnectEnv) : GatewayState × Except GatewayFailure Unit :=
  match getTransportType config with
  | .error e => (gs, .error e)
  | .ok transportType =>
    let st0 := (alGet gs.servers name).getD (initialServerState config)
    let gsIn : GatewayState := { gs with servers := alSet gs.servers name st0 }
    if transportType = TransportType.http ∧ config.url = none then
      connectFail gsIn name st0 (.invalidConfig "HTTP transport requires url field")
    else if transportType = TransportType.http ∧ env.urlParses = false then
      connectFail gsIn name st0 (.invalidUrl "Invalid URL format")
    else
      match env.outcome with
      | .ok tools => connectOk gsIn name st0 tools none
      | .failed msg retryTools =>
        if isValidationError msg then
          connectOk gsIn name st0 (retryTools.getD []) (some validationWarningMsg)
        else
          connectFail gsIn name st0 (.connectFailed msg)

/-- The `client.onclose` handler installed by `setupDisconnectHandler`:
if the server still exists, mark it `disconnected`, drop the client and
hand it to `scheduleReconnect`. -/
def onClose (gs : GatewayState) (name : String) : GatewayState :=
  match alGet gs.servers name with
  | none => gs
  | some st =>
    let st := { st with status := Status.disconnected, hasClient := false }
    scheduleReconnect { gs with servers := alSet gs.servers name st } name

/-- The firing of a pending reconnect timer (the `setTimeout` callback of
`scheduleReconnect`): re-run `connectServer` with the stored config and on
failure schedule the next attempt.  Firing consumes the pending entry.  The
server lookup cannot miss while a timer is pending (`removeServer` cancels
the timer before the entry could go away); the `none` branch is dead. -/
def timerFire (gs : GatewayState) (name : String) (env : ConnectEnv) : GatewayState :=
  match alGet gs.reconnectTimers name with
  | none => gs
  | some _ =>
    let gs := clearReconnectTimer gs name
    match alGet gs.servers name with
    | none => gs
    | some st =>
      let res := connectServer gs name st.config env
      match res.2 with
      | .ok _ => res.1
      | .error _ => scheduleReconnect res.1 name

/-- The failure arm of one `performHealthChecks` probe for `name`: only a
`connected` entry with a live client is probed; a failed or timed-out probe
marks it `disconnected`, drops the client, records the error and schedules a
reconnect. -/
def healthCheckFailed (gs : GatewayState) (name : String) (msg : String) : GatewayState :=
  match alGet gs.servers name with
  | none => gs
  | some st =>
    if st.status = Status.connected ∧ st.hasClient = true then
      let st := { st with status := Status.disconnected, hasClient := false,
                          lastError := some ("Health check failed: " ++ msg) }
      scheduleReconnect { gs with servers := alSet gs.servers name st } name
    else gs

/-- `this.config.gateway.timeout || 30000` (a `0` is falsy in JS). -/
def effectiveTimeout (gs : GatewayState) : Nat :=
  if gs.gatewayTimeout = 0 then 30000 else gs.gatewayTimeout

deriving instance DecidableEq for Except

/-- What one `callTool` dispatch returns, plus whether
`serverState.client.callTool` was actually invoked on the transport. -/
structure CallOutcome where
  result : Except GatewayFailure Unit
  ioPerformed : Bool
  deriving DecidableEq, Repr

/-- `Gateway.callTool`: look the server up, fail fast when it is absent or
not connected, otherwise race the invoke (taking `invokeMillis`, rejecting
with `invokeErr` when `some`) against the configured timeout.  The timeout
promise wins the race exactly when the invoke outlasts it; a caught error
whose message carries the `TOOL_TIMEOUT` tag is rethrown as-is, anything
else is wrapped as `TOOL_EXECUTION_ERROR`.  No branch writes to the
registry, so the state component is returned unchanged. -/
def callTool (gs : GatewayState) (serverName : String) (invokeMillis : Nat)
    (invokeErr : Option String) : CallOutcome × GatewayState :=
  match alGet gs.servers serverName with
  | none => (⟨.error (.serverNotFound serverName), false⟩, gs)
  | some st =>
    if st.status ≠ Status.connected ∨ st.hasClient = false then
      (⟨.error (.serverDisconnected serverName), false⟩, gs)
    else
      let timeout := effectiveTimeout gs
      if timeout < invokeMillis then
        (⟨.error (.toolTimeout
            ("Tool execution exceeded " ++ toString timeout ++ "ms timeout")), true⟩, gs)
      else
        match invokeErr with
        | none => (⟨.ok (), true⟩, gs)
        | some msg =>
          if containsSub msg "TOOL_TIMEOUT" then
            (⟨.error (.toolTimeout msg), true⟩, gs)
          else
            (⟨.error (.toolExecutionDenied msg), true⟩, gs)

/-- `Gateway.getServerTools`. -/
def getServerTools (gs : GatewayState) (serverName : String) :
    Except GatewayFailure (List Tool) :=
  match alGet gs.servers serverName with
  | none => .error (.serverNotFound serverName)
  | some st => .ok st.tools

/-- `Gateway.addServer`: reject a present name, validate the config shape,
persist it (the config store is external and modelled as always succeeding),
then connect; any error out of the connect is wrapped as
`SERVER_ADD_FAILED` and rethrown. -/
def addServer (gs : GatewayState) (name : String) (config : ServerConfig)
    (env : ConnectEnv) : GatewayState × Except GatewayFailure Unit :=
  if (alGet gs.servers name).isSome then
    (gs, .error (.serverAlreadyExists name))
  else
    match getTransportType config with
    | .error e => (gs, .error (.invalidConfig e.message))
    | .ok _ =>
      let res := connectServer gs name config env
      match res.2 with
      | .ok _ => (res.1, .ok ())
      | .error e => (res.1, .error (.serverAddFailed e.message))

/-- `Gateway.removeServer`: delete the registry entry first (so a close
triggered by tearing the client down cannot schedule a reconnect), cancel
any pending timer, then close the client and update the external store. -/
def removeServer (gs : GatewayState) (name : String) :
    GatewayState × Except GatewayFailure Unit :=
  match alGet gs.servers name with
  | none => (gs, .error (.serverNotFound name))
  | some _ =>
    (clearReconnectTimer { gs with servers := alErase gs.servers name } name, .ok ())

/-- The externally triggered events the gateway reacts to. -/
inductive Event
  | add (name : String) (config : ServerConfig) (env : ConnectEnv)
  | remove (name : String)
  | close (name : String)
  | healthFail (name : String) (msg : String)
  | fire (name : String) (env : ConnectEnv)
  | call (serverName : String) (invokeMillis : Nat) (invokeErr : Option String)
  deriving DecidableEq, Repr

/-- One event applied to the gateway state (results discarded). -/
def step (gs : GatewayState) : Event → GatewayState
  | .add name config env => (addServer gs name config env).1
  | .remove name => (removeServer gs name).1
  | .close name => onClose gs name
  | .healthFail name msg => healthCheckFailed gs name msg
  | .fire name env => timerFire gs name env
  | .call serverName ms err => (callTool gs serverName ms err).2

/-- A whole event trace applied in order. -/
def run (gs : GatewayState) (es : List Event) : GatewayState :=
  es.foldl step gs

/-- The server name an event concerns (`none` for a pure dispatch). -/
def evName : Event → Option String
  | .add n _ _ => some n
  | .remove n => some n
  | .close n => some n
  | .healthFail n _ => some n
  | .fire n _ => some n
  | .call _ _ _ => none

/-- Whether one connect attempt with config `cfg` under environment `env`
ends in `connectServer`'s throw paths (verification-side characterisation;
`connectServer_isOk` ties it to the definition). -/
def connectAttemptFails (cfg : ServerConfig) (env : ConnectEnv) : Bool :=
  match getTransportType cfg with
  | .error _ => true
  | .ok tt =>
    if tt = TransportType.http ∧ cfg.url = none then true
    else if tt = TransportType.http ∧ env.urlParses = false then true
    else
      match env.outcome with
      | .ok _ => false
      | .failed msg _ => ! isValidationError msg

/-- A server sitting in the terminal error state reached by exhausting the
retry budget: present with status `error`, counter at the cap, and no
pending reconnect timer. -/
def ErrorTerminal (gs : GatewayState) (name : String) : Prop :=
  (∃ st, alGet gs.servers name = some st ∧ st.status = Status.error ∧
    MAX_RECONNECT_ATTEMPTS ≤ st.reconnectAttempts) ∧
  alGet gs.reconnectTimers name = none

/-- A removed (or never-added) name: no registry entry and no timer. -/
def Absent (gs : GatewayState) (name : String) : Prop :=
  alGet gs.servers name = none ∧ alGet gs.reconnectTimers name = none

/-- The registry holds at most one entry per name. -/
def keysNodup (gs : GatewayState) : Prop :=
  (gs.servers.map Prod.fst).Nodup

/-- A server mid-backoff: present with status `reconnecting`, counter `c`,
stored config `cfg`, and a pending reconnect timer. -/
def PendingReconn (gs : GatewayState) (name : String) (cfg : ServerConfig)
    (c : Nat) : Prop :=
  (∃ st, alGet gs.servers name = some st ∧ st.status = Status.reconnecting ∧
    st.reconnectAttempts = c ∧ st.config = cfg) ∧
  ∃ d, alGet gs.reconnectTimers name = some d

/-- The entry for `name` is present, in a non-`connected` status, still
holding tool list `tl` and stored config `cfg0`: the shape of a server
sitting out a disconnected/reconnecting/error period with its previous
incarnation's capability list retained. -/
def DownRetains (gs : GatewayState) (name : String) (cfg0 : ServerConfig)
    (tl : List Tool) : Prop :=
  ∃ st, alGet gs.servers name = some st ∧ st.status ≠ Status.connected ∧
    st.tools = tl ∧ st.config = cfg0

/-- An event that cannot end `name`'s down period: it does not remove the
server, and any reconnect timer firing for it has its connect attempt fail
(config `cfg0` being the server's stored config). -/
def KeepsDown (name : String) (cfg0 : ServerConfig) (e : Event) : Prop :=
  e ≠ Event.remove name ∧
  ∀ env', e = Event.fire name env' → connectAttemptFails cfg0 env' = true

/-- Modelled from the spec: `Dispatch(serverName, capabilityName, arguments,
timeoutMillis)`.  What a dispatch honouring a caller-supplied per-call
`timeoutMillis` would return: `ToolTimeout` as soon as the invoke outlasts
that per-call deadline.  Used only to compare the spec's claimed signature
against `callTool`, which takes no such parameter. -/
def dispatchSpec (gs : GatewayState) (serverName : String) (timeoutMillis : Nat)
    (invokeMillis : Nat) (invokeErr : Option String) : Except GatewayFailure Unit :=
  match alGet gs.servers serverName with
  | none => .error (.serverNotFound serverName)
  | some st =>
    if st.status ≠ Status.connected then .error (.serverDisconnected serverName)
    else if timeoutMillis < invokeMillis then
      .error (.toolTimeout
        ("Tool execution exceeded " ++ toString timeoutMillis ++ "ms timeout"))
    else
      match invokeErr with
      | none => .ok ()
      | some msg => .error (.toolExecutionDenied msg)

/-- A stdio server config used by the concrete scenarios below. -/
def cfgEx : ServerConfig :=
  { transport := none, url := none, pkg := some "@modelcontextprotocol/server-memory",
    args := [] }

/-- A sample tool. -/
def toolEx : Tool :=
  { name := "echo", description := some "echo a message", inputSchema := "object" }

/-- A connect environment where the handshake succeeds with one tool. -/
def envOkEx : ConnectEnv :=
  { urlParses := true, outcome := HandshakeOutcome.ok [toolEx] }

/-- A connect environment where the handshake fails with a transient
(non-validation) error. -/
def envFailEx : ConnectEnv :=
  { urlParses := true, outcome := HandshakeOutcome.failed "ECONNREFUSED" none }

/-- A connect environment whose handshake fails with a Zod-style schema
validation error, the best-effort second tool listing succeeding. -/
def envValEx : ConnectEnv :=
  { urlParses := true,
    outcome := HandshakeOutcome.failed "ZodError: invalid_type" (some [toolEx]) }

/-- The gateway after a successful `addServer "s"`. -/
def gsConnEx : GatewayState := (addServer gateway0 "s" cfgEx envOkEx).1

/-- The connected entry of `gsConnEx`. -/
def stConnEx : ServerState := connectedState (initialServerState cfgEx) [toolEx] none

/-- `gsConnEx` after an unsolicited transport close of `"s"`. -/
def gsDiscEx : GatewayState := step gsConnEx (Event.close "s")

/-- The entry of `gsDiscEx`: mid-backoff after its first disconnect. -/
def stDiscEx : ServerState :=
  { config := cfgEx, status := Status.reconnecting, hasClient := false,
    tools := [toolEx], reconnectAttempts := 1, lastError := none,
    validationWarning := none }

/-- A gateway whose only server sits in the exhausted terminal error state. -/
def stTermEx : ServerState :=
  { config := cfgEx, status := Status.error, hasClient := false, tools := [],
    reconnectAttempts := 10,
    lastError := some "Maximum reconnection attempts exceeded",
    validationWarning := none }

/-- See `stTermEx`. -/
def gsTermEx : GatewayState :=
  { servers := [("s", stTermEx)], reconnectTimers := [], gatewayTimeout := 30000 }

/-- A gateway whose only server is disconnected with two failed attempts
already counted. -/
def stReEx : ServerState :=
  { config := cfgEx, status := Status.disconnected, hasClient := false,
    tools := [], reconnectAttempts := 2 }

/-- See `stReEx`. -/
def gsReEx : GatewayState :=
  { servers := [("s", stReEx)], reconnectTimers := [], gatewayTimeout := 30000 }

/-- Result of adding a fresh server whose initial connect fails
transiently. -/
def addFailEx : GatewayState × Except GatewayFailure Unit :=
  addServer gateway0 "s" cfgEx envFailEx

theorem alGet_alSet_self {α : Type} (l : List (String × α)) (k : String) (v : α) :
    alGet (alSet l k v) k = some v := by
  induction l with
  | nil => simp [alSet, alGet]
  | cons hd tl ih =>
    obtain ⟨k', w⟩ := hd
    by_cases h : k' = k <;> simp [alSet, alGet, h, ih]

theorem alGet_alSet_ne {α : Type} (l : List (String × α)) (k k' : String) (v : α)
    (h : k ≠ k') : alGet (alSet l k v) k' = alGet l k' := by
  induction l with
  | nil => simp [alSet, alGet, h]
  | cons hd tl ih =>
    obtain ⟨a, w⟩ := hd
    by_cases ha : a = k
    · subst ha
      simp [alSet, alGet, h]
    · by_cases ha' : a = k' <;> simp [alSet, alGet, ha, ha', ih, Ne.symm h]

theorem alGet_alErase_self {α : Type} (l : List (String × α)) (k : String) :
    alGet (alErase l k) k = none := by
  induction l with
  | nil => simp [alErase, alGet]
  | cons hd tl ih =>
    obtain ⟨a, w⟩ := hd
    by_cases ha : a = k <;> simp [alErase, alGet, ha, ih]

theorem alGet_alErase_ne {α : Type} (l : List (String × α)) (k k' : String)
    (h : k ≠ k') : alGet (alErase l k) k' = alGet l k' := by
  induction l with
  | nil => simp [alErase, alGet]
  | cons hd tl ih =>
    obtain ⟨a, w⟩ := hd
    by_cases ha : a = k
    · subst ha
      simp [alErase, alGet, h, ih]
    · by_cases ha' : a = k' <;> simp [alErase, alGet, ha, ha', ih, Ne.symm h]

theorem mem_keys_alSet {α : Type} (l : List (String × α)) (k a : String) (v : α)
    (h : a ∈ (alSet l k v).map Prod.fst) : a = k ∨ a ∈ l.map Prod.fst := by
  induction l with
  | nil => simpa [alSet] using h
  | cons hd tl ih =>
    obtain ⟨b, w⟩ := hd
    by_cases hb : b = k
    · subst hb
      simp only [alSet, if_pos rfl, eq_self_iff_true, if_true, List.map_cons,
        List.mem_cons] at h
      exact h.elim Or.inl (fun hh => Or.inr (List.mem_cons_of_mem _ hh))
    · simp only [alSet, if_neg hb, List.map_cons, List.mem_cons] at h
      rcases h with h | h
      · exact Or.inr (by simp [h])
      · rcases ih h with h' | h'
        · exact Or.inl h'
        · exact Or.inr (List.mem_cons_of_mem _ h')

theorem nodupKeys_alSet {α : Type} (l : List (String × α)) (k : String) (v : α)
    (h : (l.map Prod.fst).Nodup) : ((alSet l k v).map Prod.fst).Nodup := by
  induction l with
  | nil => simp [alSet]
  | cons hd tl ih =>
    obtain ⟨b, w⟩ := hd
    simp only [List.map_cons, List.nodup_cons] at h
    by_cases hb : b = k
    · subst hb
      simpa [alSet, List.nodup_cons] using h
    · simp only [alSet, if_neg hb, List.map_cons, List.nodup_cons]
      refine ⟨fun hmem => ?_, ih h.2⟩
      rcases mem_keys_alSet tl k b v hmem with rfl | hmem'
      · exact hb rfl
      · exact h.1 hmem'

theorem mem_keys_alErase {α : Type} (l : List (String × α)) (k a : String)
    (h : a ∈ (alErase l k).map Prod.fst) : a ∈ l.map Prod.fst := by
  induction l with
  | nil => simp [alErase] at h
  | cons hd tl ih =>
    obtain ⟨b, w⟩ := hd
    by_cases hb : b = k
    · subst hb
      simp only [alErase, if_pos rfl] at h
      exact List.mem_cons_of_mem _ (ih h)
    · simp only [alErase, if_neg hb, List.map_cons, List.mem_cons] at h ⊢
      rcases h with h | h
      · exact Or.inl h
      · exact Or.inr (ih h)

theorem nodupKeys_alErase {α : Type} (l : List (String × α)) (k : String)
    (h : (l.map Prod.fst).Nodup) : ((alErase l k).map Prod.fst).Nodup := by
  induction l with
  | nil => simp [alErase]
  | cons hd tl ih =>
    obtain ⟨b, w⟩ := hd
    simp only [List.map_cons, List.nodup_cons] at h
    by_cases hb : b = k
    · subst hb
      simp only [alErase, if_pos rfl]
      exact ih h.2
    · simp only [alErase, if_neg hb, List.map_cons, List.nodup_cons]
      exact ⟨fun hmem => h.1 (mem_keys_alErase tl k b hmem), ih h.2⟩

theorem callTool_state (gs : GatewayState) (n : String) (ms : Nat)
    (err : Option String) : (callTool gs n ms err).2 = gs := by
  unfold callTool
  cases alGet gs.servers n
  all_goals dsimp only
  all_goals repeat' first | rfl | split

theorem connectServer_frame (gs : GatewayState) (n : String) (cfg : ServerConfig)
    (env : ConnectEnv) (name : String) (h : n ≠ name) :
    alGet (connectServer gs n cfg env).1.servers name = alGet gs.servers name ∧
    alGet (connectServer gs n cfg env).1.reconnectTimers name =
      alGet gs.reconnectTimers name := by
  unfold connectServer connectOk connectFail clearReconnectTimer
  cases getTransportType cfg <;> dsimp only
  · exact ⟨rfl, rfl⟩
  · constructor <;>
      · repeat' split
        all_goals
          simp [alGet_alSet_ne _ _ _ _ h, alGet_alErase_ne _ _ _ h]

theorem scheduleReconnect_frame (gs : GatewayState) (n name : String) (h : n ≠ name) :
    alGet (scheduleReconnect gs n).servers name = alGet gs.servers name ∧
    alGet (scheduleReconnect gs n).reconnectTimers name =
      alGet gs.reconnectTimers name := by
  unfold scheduleReconnect clearReconnectTimer
  constructor <;>
    · repeat' split
      all_goals
        simp [alGet_alSet_ne _ _ _ _ h, alGet_alErase_ne _ _ _ h]

theorem onClose_frame (gs : GatewayState) (n name : String) (h : n ≠ name) :
    alGet (onClose gs n).servers name = alGet gs.servers name ∧
    alGet (onClose gs n).reconnectTimers name = alGet gs.reconnectTimers name := by
  unfold onClose
  cases hs : alGet gs.servers n
  · exact ⟨rfl, rfl⟩
  · dsimp only
    obtain ⟨h1, h2⟩ := scheduleReconnect_frame _ n name h
    rw [h1, h2]
    exact ⟨by simp [alGet_alSet_ne _ _ _ _ h], rfl⟩

theorem healthCheckFailed_frame (gs : GatewayState) (n : String) (msg : String)
    (name : String) (h : n ≠ name) :
    alGet (healthCheckFailed gs n msg).servers name = alGet gs.servers name ∧
    alGet (healthCheckFailed gs n msg).reconnectTimers name =
      alGet gs.reconnectTimers name := by
  unfold healthCheckFailed
  cases hs : alGet gs.servers n
  · exact ⟨rfl, rfl⟩
  · dsimp only
    split
    · obtain ⟨h1, h2⟩ := scheduleReconnect_frame _ n name h
      rw [h1, h2]
      exact ⟨by simp [alGet_alSet_ne _ _ _ _ h], rfl⟩
    · exact ⟨rfl, rfl⟩

theorem removeServer_frame (gs : GatewayState) (n name : String) (h : n ≠ name) :
    alGet (removeServer gs n).1.servers name = alGet gs.servers name ∧
    alGet (removeServer gs n).1.reconnectTimers name =
      alGet gs.reconnectTimers name := by
  unfold removeServer clearReconnectTimer
  cases hs : alGet gs.servers n
  · exact ⟨rfl, rfl⟩
  · exact ⟨by simp [alGet_alErase_ne _ _ _ h], by simp [alGet_alErase_ne _ _ _ h]⟩

theorem addServer_frame (gs : GatewayState) (n : String) (cfg : ServerConfig)
    (env : ConnectEnv) (name : String) (h : n ≠ name) :
    alGet (addServer gs n cfg env).1.servers name = alGet gs.servers name ∧
    alGet (addServer gs n cfg env).1.reconnectTimers name =
      alGet gs.reconnectTimers name := by
  unfold addServer
  split
  · exact ⟨rfl, rfl⟩
  · cases getTransportType cfg
    · exact ⟨rfl, rfl⟩
    · dsimp only
      obtain ⟨h1, h2⟩ := connectServer_frame gs n cfg env name h
      cases hr : (connectServer gs n cfg env).2 <;> simp only [hr] <;> exact ⟨h1, h2⟩

theorem timerFire_frame (gs : GatewayState) (n : String) (env : ConnectEnv)
    (name : String) (h : n ≠ name) :
    alGet (timerFire gs n env).servers name = alGet gs.servers name ∧
    alGet (timerFire gs n env).reconnectTimers name =
      alGet gs.reconnectTimers name := by
  unfold timerFire
  cases ht : alGet gs.reconnectTimers n
  · exact ⟨rfl, rfl⟩
  · dsimp only
    cases hs : alGet (clearReconnectTimer gs n).servers n
    · exact ⟨rfl, by simp [clearReconnectTimer, alGet_alErase_ne _ _ _ h]⟩
    · dsimp only
      obtain ⟨c1, c2⟩ := connectServer_frame (clearReconnectTimer gs n) n _ env name h
      have hclS : alGet (clearReconnectTimer gs n).servers name = alGet gs.servers name := rfl
      have hclT : alGet (clearReconnectTimer gs n).reconnectTimers name =
          alGet gs.reconnectTimers name := by
        simp [clearReconnectTimer, alGet_alErase_ne _ _ _ h]
      cases hr : (connectServer (clearReconnectTimer gs n) n _ env).2 <;> simp only [hr]
      · obtain ⟨s1, s2⟩ := scheduleReconnect_frame
          (connectServer (clearReconnectTimer gs n) n _ env).1 n name h
        exact ⟨by rw [s1, c1, hclS], by rw [s2, c2, hclT]⟩
      · exact ⟨by rw [c1, hclS], by rw [c2, hclT]⟩

theorem step_frame (gs : GatewayState) (e : Event) (name : String)
    (h : evName e ≠ some name) :
    alGet (step gs e).servers name = alGet gs.servers name ∧
    alGet (step gs e).reconnectTimers name = alGet gs.reconnectTimers name := by
  cases e with
  | add n cfg env => exact addServer_frame gs n cfg env name (by simpa [evName] using h)
  | remove n => exact removeServer_frame gs n name (by simpa [evName] using h)
  | close n => exact onClose_frame gs n name (by simpa [evName] using h)
  | healthFail n msg =>
      exact healthCheckFailed_frame gs n msg name (by simpa [evName] using h)
  | fire n env => exact timerFire_frame gs n env name (by simpa [evName] using h)
  | call n ms err =>
      exact ⟨by simp [step, callTool_state], by simp [step, callTool_state]⟩

theorem connectServer_isOk (gs : GatewayState) (name : String) (cfg : ServerConfig)
    (env : ConnectEnv) :
    (connectServer gs name cfg env).2 = Except.ok () ↔
      connectAttemptFails cfg env = false := by
  unfold connectServer connectAttemptFails connectOk connectFail
  cases getTransportType cfg <;> dsimp only
  · simp
  · split
    · simp
    · split
      · simp
      · cases env.outcome <;> dsimp only
        · simp
        · split <;> simp_all

theorem connectServer_fail_entry (gs : GatewayState) (name : String)
    (cfg : ServerConfig) (env : ConnectEnv) (st : ServerState)
    (hs : alGet gs.servers name = some st)
    (hf : connectAttemptFails cfg env = true) :
    ∃ e st', (connectServer gs name cfg env).2 = Except.error e ∧
      alGet (connectServer gs name cfg env).1.servers name = some st' ∧
      st'.reconnectAttempts = st.reconnectAttempts ∧ st'.config = st.config ∧
      st'.tools = st.tools ∧ st'.hasClient = st.hasClient ∧
      (connectServer gs name cfg env).1.reconnectTimers = gs.reconnectTimers := by
  unfold connectAttemptFails at hf
  unfold connectServer connectFail
  cases htt : getTransportType cfg with
  | error e => exact ⟨e, st, rfl, hs, rfl, rfl, rfl, rfl, rfl⟩
  | ok tt =>
    rw [htt] at hf
    dsimp only
    rw [hs]
    dsimp only [Option.getD]
    by_cases h1 : tt = TransportType.http ∧ cfg.url = none
    · rw [if_pos h1]
      exact ⟨_, _, rfl, alGet_alSet_self _ _ _, rfl, rfl, rfl, rfl, rfl⟩
    · rw [if_neg h1]
      by_cases h2 : tt = TransportType.http ∧ env.urlParses = false
      · rw [if_pos h2]
        exact ⟨_, _, rfl, alGet_alSet_self _ _ _, rfl, rfl, rfl, rfl, rfl⟩
      · rw [if_neg h2]
        dsimp only at hf
        rw [if_neg h1, if_neg h2] at hf
        cases hout : env.outcome with
        | ok tools => rw [hout] at hf; simp at hf
        | failed msg retry =>
          rw [hout] at hf
          dsimp only at hf
          dsimp only
          by_cases hv : isValidationError msg = true
          · rw [hv] at hf
            simp at hf
          · rw [if_neg hv]
            exact ⟨_, _, rfl, alGet_alSet_self _ _ _, rfl, rfl, rfl, rfl, rfl⟩

theorem connectServer_ok_entry (gs : GatewayState) (name : String)
    (cfg : ServerConfig) (env : ConnectEnv) (tools : List Tool)
    (hout : env.outcome = HandshakeOutcome.ok tools)
    (hok : connectAttemptFails cfg env = false) :
    (connectServer gs name cfg env).2 = Except.ok () ∧
    alGet (connectServer gs name cfg env).1.servers name =
      some (connectedState ((alGet gs.servers name).getD (initialServerState cfg))
        tools none) ∧
    alGet (connectServer gs name cfg env).1.reconnectTimers name = none := by
  unfold connectAttemptFails at hok
  unfold connectServer connectOk clearReconnectTimer
  cases htt : getTransportType cfg with
  | error e => rw [htt] at hok; simp at hok
  | ok tt =>
    rw [htt] at hok
    dsimp only at hok
    dsimp only
    by_cases h1 : tt = TransportType.http ∧ cfg.url = none
    · rw [if_pos h1] at hok; simp at hok
    · rw [if_neg h1] at hok
      rw [if_neg h1]
      by_cases h2 : tt = TransportType.http ∧ env.urlParses = false
      · rw [if_pos h2] at hok; simp at hok
      · rw [if_neg h2]
        rw [hout]
        dsimp only
        exact ⟨rfl, alGet_alSet_self _ _ _, alGet_alErase_self _ _⟩

theorem connectServer_degraded_entry (gs : GatewayState) (name : String)
    (cfg : ServerConfig) (env : ConnectEnv) (msg : String)
    (retry : Option (List Tool))
    (hout : env.outcome = HandshakeOutcome.failed msg retry)
    (hval : isValidationError msg = true)
    (hok : connectAttemptFails cfg env = false) :
    (connectServer gs name cfg env).2 = Except.ok () ∧
    alGet (connectServer gs name cfg env).1.servers name =
      some (connectedState ((alGet gs.servers name).getD (initialServerState cfg))
        (retry.getD []) (some validationWarningMsg)) ∧
    alGet (connectServer gs name cfg env).1.reconnectTimers name = none := by
  unfold connectAttemptFails at hok
  unfold connectServer connectOk clearReconnectTimer
  cases htt : getTransportType cfg with
  | error e => rw [htt] at hok; simp at hok
  | ok tt =>
    rw [htt] at hok
    dsimp only at hok
    dsimp only
    by_cases h1 : tt = TransportType.http ∧ cfg.url = none
    · rw [if_pos h1] at hok; simp at hok
    · rw [if_neg h1] at hok
      rw [if_neg h1]
      by_cases h2 : tt = TransportType.http ∧ env.urlParses = false
      · rw [if_pos h2] at hok; simp at hok
      · rw [if_neg h2]
        rw [hout]
        dsimp only
        rw [if_pos hval]
        exact ⟨rfl, alGet_alSet_self _ _ _, alGet_alErase_self _ _⟩

theorem scheduleReconnect_exhausted (gs : GatewayState) (name : String)
    (st : ServerState) (hs : alGet gs.servers name = some st)
    (hc : MAX_RECONNECT_ATTEMPTS ≤ st.reconnectAttempts) :
    ∃ st', alGet (scheduleReconnect gs name).servers name = some st' ∧
      st'.status = Status.error ∧
      st'.reconnectAttempts = st.reconnectAttempts ∧
      st'.config = st.config ∧ st'.tools = st.tools ∧
      st'.hasClient = st.hasClient ∧
      (scheduleReconnect gs name).reconnectTimers = gs.reconnectTimers := by
  unfold scheduleReconnect
  rw [hs]
  dsimp only
  rw [if_pos hc]
  exact ⟨_, alGet_alSet_self _ _ _, rfl, rfl, rfl, rfl, rfl, rfl⟩

theorem scheduleReconnect_arm (gs : GatewayState) (name : String)
    (st : ServerState) (hs : alGet gs.servers name = some st)
    (hc : st.reconnectAttempts < MAX_RECONNECT_ATTEMPTS) :
    ∃ st', alGet (scheduleReconnect gs name).servers name = some st' ∧
      st'.status = Status.reconnecting ∧
      st'.reconnectAttempts = st.reconnectAttempts + 1 ∧
      st'.config = st.config ∧ st'.tools = st.tools ∧
      st'.hasClient = st.hasClient ∧
      alGet (scheduleReconnect gs name).reconnectTimers name =
        some (backoffDelay st.reconnectAttempts) := by
  unfold scheduleReconnect clearReconnectTimer
  rw [hs]
  dsimp only
  rw [if_neg (not_le.mpr hc)]
  dsimp only
  exact ⟨_, alGet_alSet_self _ _ _, rfl, rfl, rfl, rfl, rfl, alGet_alSet_self _ _ _⟩

theorem addServer_present (gs : GatewayState) (name : String) (cfg : ServerConfig)
    (env : ConnectEnv) (st : ServerState) (hs : alGet gs.servers name = some st) :
    addServer gs name cfg env = (gs, Except.error (.serverAlreadyExists name)) := by
  unfold addServer
  rw [hs]
  rfl

theorem onClose_present (gs : GatewayState) (name : String) (st : ServerState)
    (hs : alGet gs.servers name = some st) :
    onClose gs name =
      scheduleReconnect { gs with servers := alSet gs.servers name ({ st with status := Status.disconnected, hasClient := false }) } name := by
  unfold onClose
  rw [hs]

theorem errorTerminal_step (gs : GatewayState) (name : String) (e : Event)
    (ht : ErrorTerminal gs name) (he : e ≠ Event.remove name) :
    ErrorTerminal (step gs e) name := by
  obtain ⟨⟨st, hs, hst, hc⟩, htm⟩ := ht
  by_cases hn : evName e = some name
  case neg =>
    obtain ⟨f1, f2⟩ := step_frame gs e name hn
    exact ⟨⟨st, f1 ▸ hs, hst, hc⟩, f2 ▸ htm⟩
  case pos =>
    cases e with
    | add n cfg env =>
      simp only [evName, Option.some.injEq] at hn
      subst hn
      show ErrorTerminal (addServer gs n cfg env).1 n
      rw [addServer_present gs n cfg env st hs]
      exact ⟨⟨st, hs, hst, hc⟩, htm⟩
    | remove n =>
      simp only [evName, Option.some.injEq] at hn
      subst hn
      exact absurd rfl he
    | close n =>
      simp only [evName, Option.some.injEq] at hn
      subst hn
      show ErrorTerminal (onClose gs n) n
      rw [onClose_present gs n st hs]
      obtain ⟨st'', h1, h2, h3, _, _, _, h7⟩ :=
        scheduleReconnect_exhausted
          { gs with servers := alSet gs.servers n ({ st with status := Status.disconnected, hasClient := false }) }
          n ({ st with status := Status.disconnected, hasClient := false })
          (alGet_alSet_self _ _ _) hc
      refine ⟨⟨st'', h1, h2, ?_⟩, ?_⟩
      · rw [h3]; exact hc
      · rw [h7]; exact htm
    | healthFail n msg =>
      simp only [evName, Option.some.injEq] at hn
      subst hn
      show ErrorTerminal (healthCheckFailed gs n msg) n
      unfold healthCheckFailed
      rw [hs]
      dsimp only
      rw [if_neg (fun hcontra => by rw [hst] at hcontra; exact absurd hcontra.1 (by simp))]
      exact ⟨⟨st, hs, hst, hc⟩, htm⟩
    | fire n env =>
      simp only [evName, Option.some.injEq] at hn
      subst hn
      show ErrorTerminal (timerFire gs n env) n
      unfold timerFire
      rw [htm]
      exact ⟨⟨st, hs, hst, hc⟩, htm⟩
    | call n ms err => simp [evName] at hn

theorem errorTerminal_run (gs : GatewayState) (name : String) (es : List Event)
    (ht : ErrorTerminal gs name)
    (hes : ∀ e ∈ es, e ≠ Event.remove name) : ErrorTerminal (run gs es) name := by
  induction es generalizing gs with
  | nil => exact ht
  | cons e es ih =>
    exact ih (step gs e)
      (errorTerminal_step gs name e ht (hes e (List.mem_cons_self e es)))
      (fun e' he' => hes e' (List.mem_cons_of_mem e he'))

theorem absent_step (gs : GatewayState) (name : String) (e : Event)
    (ha : Absent gs name)
    (he : ∀ cfg env, e ≠ Event.add name cfg env) : Absent (step gs e) name := by
  obtain ⟨hs, htm⟩ := ha
  by_cases hn : evName e = some name
  case neg =>
    obtain ⟨f1, f2⟩ := step_frame gs e name hn
    exact ⟨f1 ▸ hs, f2 ▸ htm⟩
  case pos =>
    cases e with
    | add n cfg env =>
      simp only [evName, Option.some.injEq] at hn
      subst hn
      exact absurd rfl (he cfg env)
    | remove n =>
      simp only [evName, Option.some.injEq] at hn
      subst hn
      show Absent (removeServer gs n).1 n
      unfold removeServer
      rw [hs]
      exact ⟨hs, htm⟩
    | close n =>
      simp only [evName, Option.some.injEq] at hn
      subst hn
      show Absent (onClose gs n) n
      unfold onClose
      rw [hs]
      exact ⟨hs, htm⟩
    | healthFail n msg =>
      simp only [evName, Option.some.injEq] at hn
      subst hn
      show Absent (healthCheckFailed gs n msg) n
      unfold healthCheckFailed
      rw [hs]
      exact ⟨hs, htm⟩
    | fire n env =>
      simp only [evName, Option.some.injEq] at hn
      subst hn
      show Absent (timerFire gs n env) n
      unfold timerFire
      rw [htm]
      exact ⟨hs, htm⟩
    | call n ms err => simp [evName] at hn

theorem absent_run (gs : GatewayState) (name : String) (es : List Event)
    (ha : Absent gs name)
    (hes : ∀ e ∈ es, ∀ cfg env, e ≠ Event.add name cfg env) :
    Absent (run gs es) name := by
  induction es generalizing gs with
  | nil => exact ha
  | cons e es ih =>
    exact ih (step gs e)
      (absent_step gs name e ha (hes e (List.mem_cons_self e es)))
      (fun e' he' => hes e' (List.mem_cons_of_mem e he'))

theorem keysNodup_connectServer (gs : GatewayState) (n : String)
    (cfg : ServerConfig) (env : ConnectEnv) (h : keysNodup gs) :
    keysNodup (connectServer gs n cfg env).1 := by
  unfold keysNodup at h ⊢
  unfold connectServer connectOk connectFail clearReconnectTimer
  repeat' split
  all_goals
    first
      | exact h
      | exact nodupKeys_alSet _ _ _ (nodupKeys_alSet _ _ _ h)

theorem keysNodup_scheduleReconnect (gs : GatewayState) (n : String)
    (h : keysNodup gs) : keysNodup (scheduleReconnect gs n) := by
  unfold keysNodup at h ⊢
  unfold scheduleReconnect clearReconnectTimer
  repeat' split
  all_goals
    first
      | exact h
      | exact nodupKeys_alSet _ _ _ h

theorem keysNodup_step (gs : GatewayState) (e : Event) (h : keysNodup gs) :
    keysNodup (step gs e) := by
  cases e with
  | add n cfg env =>
    show keysNodup (addServer gs n cfg env).1
    unfold addServer
    split
    · exact h
    · cases getTransportType cfg
      · exact h
      · dsimp only
        cases hr : (connectServer gs n cfg env).2 <;> simp only [hr] <;>
          exact keysNodup_connectServer gs n cfg env h
  | remove n =>
    show keysNodup (removeServer gs n).1
    unfold removeServer clearReconnectTimer
    cases alGet gs.servers n
    · exact h
    · exact nodupKeys_alErase _ _ h
  | close n =>
    show keysNodup (onClose gs n)
    unfold onClose
    cases alGet gs.servers n
    · exact h
    · exact keysNodup_scheduleReconnect _ n (nodupKeys_alSet _ _ _ h)
  | healthFail n msg =>
    show keysNodup (healthCheckFailed gs n msg)
    unfold healthCheckFailed
    cases alGet gs.servers n
    · exact h
    · dsimp only
      split
      · exact keysNodup_scheduleReconnect _ n (nodupKeys_alSet _ _ _ h)
      · exact h
  | fire n env =>
    show keysNodup (timerFire gs n env)
    unfold timerFire
    cases alGet gs.reconnectTimers n
    · exact h
    · dsimp only
      cases alGet (clearReconnectTimer gs n).servers n
      · exact h
      · dsimp only
        cases hr : (connectServer (clearReconnectTimer gs n) n _ env).2 <;>
            simp only [hr]
        · exact keysNodup_scheduleReconnect _ n
            (keysNodup_connectServer (clearReconnectTimer gs n) n _ env h)
        · exact keysNodup_connectServer (clearReconnectTimer gs n) n _ env h
  | call n ms err =>
    show keysNodup (callTool gs n ms err).2
    rw [callTool_state]
    exact h

theorem keysNodup_run (gs : GatewayState) (es : List Event) (h : keysNodup gs) :
    keysNodup (run gs es) := by
  induction es generalizing gs with
  | nil => exact h
  | cons e es ih => exact ih (step gs e) (keysNodup_step gs e h)

theorem run_cons (gs : GatewayState) (e : Event) (es : List Event) :
    run gs (e :: es) = run (step gs e) es := rfl

theorem timerFire_fail_step (gs : GatewayState) (name : String)
    (cfg : ServerConfig) (c : Nat) (env : ConnectEnv)
    (hp : PendingReconn gs name cfg c)
    (hf : connectAttemptFails cfg env = true) :
    (c < MAX_RECONNECT_ATTEMPTS →
      PendingReconn (timerFire gs name env) name cfg (c + 1)) ∧
    (MAX_RECONNECT_ATTEMPTS ≤ c → ErrorTerminal (timerFire gs name env) name) := by
  obtain ⟨⟨st, hs, hst, hc, hcfg⟩, d, htm⟩ := hp
  have hs1 : alGet (clearReconnectTimer gs name).servers name = some st := hs
  have hf' : connectAttemptFails st.config env = true := by rw [hcfg]; exact hf
  obtain ⟨e, st', hres, hentry, hc', hcfg', htools', hcl', htmp⟩ :=
    connectServer_fail_entry (clearReconnectTimer gs name) name st.config env st hs1 hf'
  have hTF : timerFire gs name env =
      scheduleReconnect (connectServer (clearReconnectTimer gs name) name st.config env).1 name := by
    unfold timerFire
    rw [htm]
    dsimp only
    rw [hs1]
    dsimp only
    rw [hres]
  have htimers :
      alGet (connectServer (clearReconnectTimer gs name) name st.config env).1.reconnectTimers name = none := by
    rw [htmp]
    exact alGet_alErase_self _ _
  constructor
  · intro hlt
    obtain ⟨st'', k1, k2, k3, k4, _, _, k7⟩ :=
      scheduleReconnect_arm _ name st' hentry (by rw [hc', hc]; exact hlt)
    rw [hTF]
    refine ⟨⟨st'', k1, k2, ?_, ?_⟩, _, k7⟩
    · rw [k3, hc', hc]
    · rw [k4, hcfg', hcfg]
  · intro hge
    obtain ⟨st'', k1, k2, k3, _, _, _, k7⟩ :=
      scheduleReconnect_exhausted _ name st' hentry (by rw [hc', hc]; exact hge)
    rw [hTF]
    refine ⟨⟨st'', k1, k2, ?_⟩, ?_⟩
    · rw [k3, hc', hc]
      exact hge
    · rw [k7]
      exact htimers

theorem fires_to_terminal (k : Nat) (gs : GatewayState) (name : String)
    (cfg : ServerConfig) (c : Nat) (env : ConnectEnv)
    (hp : PendingReconn gs name cfg c)
    (hf : connectAttemptFails cfg env = true)
    (hcmax : c ≤ MAX_RECONNECT_ATTEMPTS)
    (hck : c + k = MAX_RECONNECT_ATTEMPTS + 1) :
    ErrorTerminal (run gs (List.replicate k (Event.fire name env))) name := by
  induction k generalizing gs c with
  | zero =>
    exfalso
    unfold MAX_RECONNECT_ATTEMPTS at hcmax hck
    omega
  | succ k ih =>
    rw [List.replicate_succ, run_cons]
    have hstep : step gs (Event.fire name env) = timerFire gs name env := rfl
    by_cases hlt : c < MAX_RECONNECT_ATTEMPTS
    · have hp' := (timerFire_fail_step gs name cfg c env hp hf).1 hlt
      rw [hstep]
      exact ih (timerFire gs name env) (c + 1) hp' (by omega) (by omega)
    · have hterm := (timerFire_fail_step gs name cfg c env hp hf).2 (not_lt.mp hlt)
      rw [hstep]
      exact errorTerminal_run _ name _ hterm
        (fun e he => by rw [List.eq_of_mem_replicate he]; simp)

theorem onClose_schedules (gs : GatewayState) (name : String) (st : ServerState)
    (hs : alGet gs.servers name = some st)
    (hc : st.reconnectAttempts < MAX_RECONNECT_ATTEMPTS) :
    PendingReconn (onClose gs name) name st.config (st.reconnectAttempts + 1) := by
  rw [onClose_present gs name st hs]
  obtain ⟨st'', k1, k2, k3, k4, _, _, k7⟩ :=
    scheduleReconnect_arm
      { gs with servers := alSet gs.servers name ({ st with status := Status.disconnected, hasClient := false }) }
      name ({ st with status := Status.disconnected, hasClient := false })
      (alGet_alSet_self _ _ _) hc
  exact ⟨⟨st'', k1, k2, k3, k4⟩, _, k7⟩

theorem removeServer_present (gs : GatewayState) (name : String) (st : ServerState)
    (hs : alGet gs.servers name = some st) :
    (removeServer gs name).2 = Except.ok () ∧
    alGet (removeServer gs name).1.servers name = none ∧
    alGet (removeServer gs name).1.reconnectTimers name = none := by
  unfold removeServer clearReconnectTimer
  rw [hs]
  exact ⟨rfl, alGet_alErase_self _ _, alGet_alErase_self _ _⟩

theorem connectServer_fail_entry_ok_tt (gs : GatewayState) (name : String)
    (cfg : ServerConfig) (env : ConnectEnv) (tt : TransportType)
    (htt : getTransportType cfg = Except.ok tt)
    (hf : connectAttemptFails cfg env = true) :
    ∃ e, (connectServer gs name cfg env).2 = Except.error e ∧
      alGet (connectServer gs name cfg env).1.servers name =
        some ({ (alGet gs.servers name).getD (initialServerState cfg) with status := Status.error, lastError := some e.message }) ∧
      (connectServer gs name cfg env).1.reconnectTimers = gs.reconnectTimers := by
  unfold connectAttemptFails at hf
  rw [htt] at hf
  dsimp only at hf
  unfold connectServer connectFail
  rw [htt]
  dsimp only
  by_cases h1 : tt = TransportType.http ∧ cfg.url = none
  · rw [if_pos h1]
    exact ⟨_, rfl, alGet_alSet_self _ _ _, rfl⟩
  · rw [if_neg h1]
    rw [if_neg h1] at hf
    by_cases h2 : tt = TransportType.http ∧ env.urlParses = false
    · rw [if_pos h2]
      exact ⟨_, rfl, alGet_alSet_self _ _ _, rfl⟩
    · rw [if_neg h2]
      rw [if_neg h2] at hf
      cases hout : env.outcome with
      | ok tools => rw [hout] at hf; simp at hf
      | failed msg retry =>
        rw [hout] at hf
        dsimp only at hf
        dsimp only
        by_cases hv : isValidationError msg = true
        · rw [hv] at hf
          simp at hf
        · rw [if_neg hv]
          exact ⟨_, rfl, alGet_alSet_self _ _ _, rfl⟩

theorem connectAttemptFails_false_failed (cfg : ServerConfig) (env : ConnectEnv)
    (msg : String) (retry : Option (List Tool))
    (hout : env.outcome = HandshakeOutcome.failed msg retry)
    (hok : connectAttemptFails cfg env = false) : isValidationError msg = true := by
  unfold connectAttemptFails at hok
  cases htt : getTransportType cfg with
  | error e => rw [htt] at hok; simp at hok
  | ok tt =>
    rw [htt] at hok
    dsimp only at hok
    by_cases h1 : tt = TransportType.http ∧ cfg.url = none
    · rw [if_pos h1] at hok; simp at hok
    · rw [if_neg h1] at hok
      by_cases h2 : tt = TransportType.http ∧ env.urlParses = false
      · rw [if_pos h2] at hok; simp at hok
      · rw [if_neg h2] at hok
        rw [hout] at hok
        dsimp only at hok
        simpa using hok

theorem addServer_absent_counter (gs : GatewayState) (name : String)
    (cfg : ServerConfig) (env : ConnectEnv) (tt : TransportType)
    (habs : alGet gs.servers name = none)
    (htt : getTransportType cfg = Except.ok tt) :
    ∃ st', alGet (addServer gs name cfg env).1.servers name = some st' ∧
      st'.reconnectAttempts = 0 := by
  unfold addServer
  rw [habs, htt]
  dsimp only
  rw [if_neg (by simp)]
  by_cases hfail : connectAttemptFails cfg env = true
  · obtain ⟨e, r1, r2, r3⟩ := connectServer_fail_entry_ok_tt gs name cfg env tt htt hfail
    rw [r1]
    dsimp only
    rw [habs] at r2
    exact ⟨_, r2, rfl⟩
  · have hok : connectAttemptFails cfg env = false := by
      cases hval : connectAttemptFails cfg env
      · rfl
      · exact absurd hval hfail
    cases hout : env.outcome with
    | ok tools =>
      obtain ⟨r1, r2, r3⟩ := connectServer_ok_entry gs name cfg env tools hout hok
      rw [r1]
      dsimp only
      rw [habs] at r2
      exact ⟨_, r2, rfl⟩
    | failed msg retry =>
      have hval := connectAttemptFails_false_failed cfg env msg retry hout hok
      obtain ⟨r1, r2, r3⟩ := connectServer_degraded_entry gs name cfg env msg retry hout hval hok
      rw [r1]
      dsimp only
      rw [habs] at r2
      exact ⟨_, r2, rfl⟩

theorem scheduleReconnect_tools (gs : GatewayState) (name : String)
    (st : ServerState) (hs : alGet gs.servers name = some st) :
    ∃ st', alGet (scheduleReconnect gs name).servers name = some st' ∧
      st'.tools = st.tools := by
  by_cases hc : MAX_RECONNECT_ATTEMPTS ≤ st.reconnectAttempts
  · obtain ⟨st', h1, _, _, _, h5, _, _⟩ := scheduleReconnect_exhausted gs name st hs hc
    exact ⟨st', h1, h5⟩
  · obtain ⟨st', h1, _, _, _, h5, _, _⟩ :=
      scheduleReconnect_arm gs name st hs (not_le.mp hc)
    exact ⟨st', h1, h5⟩

theorem scheduleReconnect_retains (gs : GatewayState) (name : String)
    (st : ServerState) (hs : alGet gs.servers name = some st) :
    ∃ st', alGet (scheduleReconnect gs name).servers name = some st' ∧
      st'.status ≠ Status.connected ∧ st'.tools = st.tools ∧
      st'.config = st.config := by
  by_cases hc : MAX_RECONNECT_ATTEMPTS ≤ st.reconnectAttempts
  · obtain ⟨st', h1, h2, _, h4, h5, _, _⟩ := scheduleReconnect_exhausted gs name st hs hc
    exact ⟨st', h1, by rw [h2]; simp, h5, h4⟩
  · obtain ⟨st', h1, h2, _, h4, h5, _, _⟩ :=
      scheduleReconnect_arm gs name st hs (not_le.mp hc)
    exact ⟨st', h1, by rw [h2]; simp, h5, h4⟩

theorem healthCheckFailed_tools (gs : GatewayState) (name : String) (msg : String)
    (st : ServerState) (hs : alGet gs.servers name = some st) :
    ∃ st', alGet (healthCheckFailed gs name msg).servers name = some st' ∧
      st'.tools = st.tools := by
  unfold healthCheckFailed
  rw [hs]
  dsimp only
  split
  · obtain ⟨st', h1, h5⟩ :=
      scheduleReconnect_tools
        { gs with servers := alSet gs.servers name ({ st with status := Status.disconnected, hasClient := false, lastError := some ("Health check failed: " ++ msg) }) }
        name ({ st with status := Status.disconnected, hasClient := false, lastError := some ("Health check failed: " ++ msg) })
        (alGet_alSet_self _ _ _)
    exact ⟨st', h1, h5⟩
  · exact ⟨st, hs, rfl⟩

theorem downRetains_step (gs : GatewayState) (name : String)
    (cfg0 : ServerConfig) (tl : List Tool) (e : Event)
    (hd : DownRetains gs name cfg0 tl) (hk : KeepsDown name cfg0 e) :
    DownRetains (step gs e) name cfg0 tl := by
  obtain ⟨st, hs, hst, htl, hcfg⟩ := hd
  obtain ⟨hnr, hfi⟩ := hk
  by_cases hn : evName e = some name
  case neg =>
    obtain ⟨f1, _⟩ := step_frame gs e name hn
    exact ⟨st, f1 ▸ hs, hst, htl, hcfg⟩
  case pos =>
    cases e with
    | add n cfg env =>
      simp only [evName, Option.some.injEq] at hn
      subst hn
      show DownRetains (addServer gs n cfg env).1 n cfg0 tl
      rw [addServer_present gs n cfg env st hs]
      exact ⟨st, hs, hst, htl, hcfg⟩
    | remove n =>
      simp only [evName, Option.some.injEq] at hn
      subst hn
      exact absurd rfl hnr
    | close n =>
      simp only [evName, Option.some.injEq] at hn
      subst hn
      show DownRetains (onClose gs n) n cfg0 tl
      rw [onClose_present gs n st hs]
      obtain ⟨st', h1, h2, h5, h4⟩ :=
        scheduleReconnect_retains
          { gs with servers := alSet gs.servers n ({ st with status := Status.disconnected, hasClient := false }) }
          n ({ st with status := Status.disconnected, hasClient := false })
          (alGet_alSet_self _ _ _)
      refine ⟨st', h1, h2, ?_, ?_⟩
      · rw [h5]; exact htl
      · rw [h4]; exact hcfg
    | healthFail n msg =>
      simp only [evName, Option.some.injEq] at hn
      subst hn
      show DownRetains (healthCheckFailed gs n msg) n cfg0 tl
      unfold healthCheckFailed
      rw [hs]
      dsimp only
      rw [if_neg (fun hcon => hst hcon.1)]
      exact ⟨st, hs, hst, htl, hcfg⟩
    | fire n env =>
      simp only [evName, Option.some.injEq] at hn
      subst hn
      show DownRetains (timerFire gs n env) n cfg0 tl
      have hfail : connectAttemptFails cfg0 env = true := hfi env rfl
      cases htm : alGet gs.reconnectTimers n with
      | none =>
        unfold timerFire
        rw [htm]
        exact ⟨st, hs, hst, htl, hcfg⟩
      | some d =>
        have hs1 : alGet (clearReconnectTimer gs n).servers n = some st := hs
        have hfail' : connectAttemptFails st.config env = true := by
          rw [hcfg]; exact hfail
        obtain ⟨e', st', hres, hentry, hc', hcfg', htools', hcl', htmp⟩ :=
          connectServer_fail_entry (clearReconnectTimer gs n) n st.config env st hs1 hfail'
        have hTF : timerFire gs n env =
            scheduleReconnect (connectServer (clearReconnectTimer gs n) n st.config env).1 n := by
          unfold timerFire
          rw [htm]
          dsimp only
          rw [hs1]
          dsimp only
          rw [hres]
        rw [hTF]
        obtain ⟨st'', k1, k2, k5, k4⟩ := scheduleReconnect_retains _ n st' hentry
        refine ⟨st'', k1, k2, ?_, ?_⟩
        · rw [k5, htools']; exact htl
        · rw [k4, hcfg']; exact hcfg
    | call n ms err => simp [evName] at hn

theorem downRetains_run (gs : GatewayState) (name : String) (cfg0 : ServerConfig)
    (tl : List Tool) (es : List Event)
    (hd : DownRetains gs name cfg0 tl)
    (hes : ∀ e ∈ es, KeepsDown name cfg0 e) :
    DownRetains (run gs es) name cfg0 tl := by
  induction es generalizing gs with
  | nil => exact hd
  | cons e es ih =>
    exact ih (step gs e)
      (downRetains_step gs name cfg0 tl e hd (hes e (List.mem_cons_self e es)))
      (fun e' he' => hes e' (List.mem_cons_of_mem e he'))

theorem onClose_tools (gs : GatewayState) (name : String) (st : ServerState)
    (hs : alGet gs.servers name = some st) :
    ∃ st', alGet (onClose gs name).servers name = some st' ∧
      st'.tools = st.tools := by
  rw [onClose_present gs name st hs]
  obtain ⟨st', h1, h5⟩ :=
    scheduleReconnect_tools
      { gs with servers := alSet gs.servers name ({ st with status := Status.disconnected, hasClient := false }) }
      name ({ st with status := Status.disconnected, hasClient := false })
      (alGet_alSet_self _ _ _)
  exact ⟨st', h1, h5⟩

theorem connectServer_transient_entry (gs : GatewayState) (name : String)
    (cfg : ServerConfig) (env : ConnectEnv) (msg : String)
    (retry : Option (List Tool)) (tt : TransportType)
    (hout : env.outcome = HandshakeOutcome.failed msg retry)
    (hval : isValidationError msg = false)
    (htt : getTransportType cfg = Except.ok tt)
    (hurl : tt = TransportType.http → cfg.url.isSome = true ∧ env.urlParses = true) :
    (connectServer gs name cfg env).2 = Except.error (GatewayFailure.connectFailed msg) ∧
    alGet (connectServer gs name cfg env).1.servers name =
      some ({ (alGet gs.servers name).getD (initialServerState cfg) with status := Status.error, lastError := some msg }) ∧
    (connectServer gs name cfg env).1.reconnectTimers = gs.reconnectTimers := by
  unfold connectServer connectFail
  rw [htt]
  dsimp only
  have h1 : ¬(tt = TransportType.http ∧ cfg.url = none) := by
    rintro ⟨h, hurlnone⟩
    obtain ⟨hu, _⟩ := hurl h
    rw [hurlnone] at hu
    simp at hu
  have h2 : ¬(tt = TransportType.http ∧ env.urlParses = false) := by
    rintro ⟨h, hp⟩
    obtain ⟨_, hp'⟩ := hurl h
    rw [hp] at hp'
    exact Bool.noConfusion hp'
  rw [if_neg h1, if_neg h2, hout]
  dsimp only
  rw [if_neg (by rw [hval]; simp)]
  exact ⟨rfl, alGet_alSet_self _ _ _, rfl⟩

theorem addServer_transient_aux (gs : GatewayState) (name : String)
    (cfg : ServerConfig) (env : ConnectEnv) (msg : String)
    (retry : Option (List Tool)) (tt : TransportType)
    (habs : alGet gs.servers name = none)
    (hout : env.outcome = HandshakeOutcome.failed msg retry)
    (hval : isValidationError msg = false)
    (htt : getTransportType cfg = Except.ok tt)
    (hurl : tt = TransportType.http → cfg.url.isSome = true ∧ env.urlParses = true) :
    (addServer gs name cfg env).2 =
      Except.error (GatewayFailure.serverAddFailed msg) ∧
    alGet (addServer gs name cfg env).1.servers name =
      some ({ initialServerState cfg with status := Status.error, lastError := some msg }) ∧
    alGet (addServer gs name cfg env).1.reconnectTimers name =
      alGet gs.reconnectTimers name := by
  obtain ⟨r1, r2, r3⟩ :=
    connectServer_transient_entry gs name cfg env msg retry tt hout hval htt hurl
  unfold addServer
  rw [habs, htt]
  dsimp only
  rw [if_neg (by simp)]
  rw [r1]
  dsimp only
  rw [habs] at r2
  exact ⟨rfl, r2, by rw [r3]⟩

/-- C1: for every reconnect attempt n (1-indexed; the counter reads n−1 when
the attempt is scheduled), `scheduleReconnect` arms the timer with delay
min(1000·2^(n−1), 30000) ms, and over attempts 1..10 the delay sequence is
exactly 1000, 2000, 4000, 8000, 16000, 30000, 30000, 30000, 30000, 30000. -/
theorem backoff_delay_sequence (gs : GatewayState) (name : String)
    (st : ServerState) (n : Nat) (hs : alGet gs.servers name = some st)
    (h1 : 1 ≤ n) (h10 : n ≤ 10) (hc : st.reconnectAttempts = n - 1) :
    alGet (scheduleReconnect gs name).reconnectTimers name =
      some (min (1000 * 2 ^ (n - 1)) 30000) ∧
    (List.range 10).map (fun k => backoffDelay k) =
      [1000, 2000, 4000, 8000, 16000, 30000, 30000, 30000, 30000, 30000] := by
  constructor
  · obtain ⟨st', _, _, _, _, _, _, k7⟩ :=
      scheduleReconnect_arm gs name st hs
        (by rw [hc]; unfold MAX_RECONNECT_ATTEMPTS; omega)
    rw [k7, hc]
    rfl
  · decide

/-- C1 witness: a counter reading 2 (attempt n = 3) arms a 4000 ms timer. -/
theorem backoff_delay_sequence_witness :
    alGet (scheduleReconnect gsReEx "s").reconnectTimers "s" =
      some (min (1000 * 2 ^ (3 - 1)) 30000) ∧
    (List.range 10).map (fun k => backoffDelay k) =
      [1000, 2000, 4000, 8000, 16000, 30000, 30000, 30000, 30000, 30000] :=
  backoff_delay_sequence gsReEx "s" stReEx 3 (by decide) (by decide) (by decide)
    (by decide)

/-- C2 counterexample: a server in the non-connected `reconnecting` status
(where dispatch does fail fast) becomes dispatchable again after one
successful scheduled reconnect, with no remove/re-add in between — so the
claim's "remains true for every subsequent dispatch until the server is
removed and re-added" clause fails for recoverable statuses. -/
theorem dispatch_persistence_counterexample :
    (alGet gsDiscEx.servers "s").map ServerState.status = some Status.reconnecting ∧
    (callTool gsDiscEx "s" 50 none).1 =
      ⟨Except.error (GatewayFailure.serverDisconnected "s"), false⟩ ∧
    (callTool (step gsDiscEx (Event.fire "s" envOkEx)) "s" 50 none).1 =
      ⟨Except.ok (), true⟩ := by decide

/-- C2 (amended): dispatch against any non-connected server returns
`ServerDisconnected` without invoking the transport; for a server in the
exhausted terminal `error` state this stays true for every subsequent
dispatch under any events that do not remove the server (a
`disconnected`/`reconnecting` server may instead recover via a successful
scheduled reconnect). -/
theorem dispatch_fail_fast (gs : GatewayState) (name : String)
    (st : ServerState) (ms : Nat) (err : Option String) (es : List Event)
    (hs : alGet gs.servers name = some st)
    (hst : st.status ≠ Status.connected) :
    (callTool gs name ms err).1 =
      ⟨Except.error (GatewayFailure.serverDisconnected name), false⟩ ∧
    (ErrorTerminal gs name → (∀ e ∈ es, e ≠ Event.remove name) →
      (callTool (run gs es) name ms err).1 =
        ⟨Except.error (GatewayFailure.serverDisconnected name), false⟩) := by
  have key : ∀ (gs' : GatewayState) (st' : ServerState),
      alGet gs'.servers name = some st' → st'.status ≠ Status.connected →
      (callTool gs' name ms err).1 =
        ⟨Except.error (GatewayFailure.serverDisconnected name), false⟩ := by
    intro gs' st' hs' hst'
    unfold callTool
    rw [hs']
    dsimp only
    rw [if_pos (Or.inl hst')]
  refine ⟨key gs st hs hst, fun hterm hes => ?_⟩
  obtain ⟨⟨st', hs', hst', _⟩, _⟩ := errorTerminal_run gs name es hterm hes
  exact key (run gs es) st' hs' (by rw [hst']; simp)

/-- C2 witness: a terminal-error server rejects dispatch now and still does
after a further stale close event. -/
theorem dispatch_fail_fast_witness :
    (callTool gsTermEx "s" 5 none).1 =
      ⟨Except.error (GatewayFailure.serverDisconnected "s"), false⟩ ∧
    (callTool (run gsTermEx [Event.close "s"]) "s" 5 none).1 =
      ⟨Except.error (GatewayFailure.serverDisconnected "s"), false⟩ := by
  obtain ⟨w1, w2⟩ := dispatch_fail_fast gsTermEx "s" stTermEx 5 none
    [Event.close "s"] (by decide) (by decide)
  refine ⟨w1, w2 ⟨⟨stTermEx, by decide, by decide, by decide⟩, by decide⟩ ?_⟩
  intro e he
  rw [List.mem_singleton] at he
  subst he
  decide

/-- C3 counterexample: `callTool` takes no per-call timeout — under the
default gateway-wide 30000 ms timeout a 5000 ms invoke succeeds, while the
spec's per-call dispatch with timeoutMillis = 100 < 5000 must return
`ToolTimeout`. -/
theorem per_call_timeout_counterexample :
    100 < 5000 ∧
    dispatchSpec gsConnEx "s" 100 5000 none =
      Except.error
        (GatewayFailure.toolTimeout "Tool execution exceeded 100ms timeout") ∧
    (callTool gsConnEx "s" 5000 none).1.result = Except.ok () := by decide

/-- C3 (amended): dispatch applies the gateway-wide configured timeout
(`config.gateway.timeout`, defaulting to 30000 when falsy), not a per-call
parameter: an invoke outlasting it returns `ToolTimeout`, and the registry
(hence the server's connection status) is unchanged by the call. -/
theorem dispatch_gateway_timeout (gs : GatewayState) (name : String)
    (st : ServerState) (ms : Nat) (err : Option String)
    (hs : alGet gs.servers name = some st)
    (hst : st.status = Status.connected) (hcl : st.hasClient = true)
    (hms : effectiveTimeout gs < ms) :
    (callTool gs name ms err).1 =
      ⟨Except.error (GatewayFailure.toolTimeout ("Tool execution exceeded " ++ toString (effectiveTimeout gs) ++ "ms timeout")), true⟩ ∧
    (callTool gs name ms err).2 = gs := by
  refine ⟨?_, callTool_state gs name ms err⟩
  unfold callTool
  rw [hs]
  dsimp only
  rw [if_neg (by rw [hst, hcl]; simp)]
  rw [if_pos hms]

/-- C3 witness: a 40000 ms invoke against the default 30000 ms gateway
timeout yields `ToolTimeout` and leaves the state untouched. -/
theorem dispatch_gateway_timeout_witness :
    (callTool gsConnEx "s" 40000 none).1 =
      ⟨Except.error (GatewayFailure.toolTimeout ("Tool execution exceeded " ++ toString (effectiveTimeout gsConnEx) ++ "ms timeout")), true⟩ ∧
    (callTool gsConnEx "s" 40000 none).2 = gsConnEx :=
  dispatch_gateway_timeout gsConnEx "s" stConnEx 40000 none (by decide) (by decide)
    (by decide) (by decide)

/-- C4 counterexample: adding a fresh server whose initial connect fails
with the transient error "ECONNREFUSED" makes `addServer` throw
`SERVER_ADD_FAILED` — a hard failure — with no reconnect timer armed and the
attempt counter still 0 (the failed attempt is not counted). -/
theorem add_transient_counterexample :
    addFailEx.2 = Except.error (GatewayFailure.serverAddFailed "ECONNREFUSED") ∧
    alGet addFailEx.1.reconnectTimers "s" = none ∧
    (alGet addFailEx.1.servers "s").map ServerState.reconnectAttempts = some 0 := by
  decide

/-- C4 (amended): an `addServer` of an absent name with a structurally valid
config whose initial synchronous connect fails with a retryable (transient,
non-validation) error is a hard failure: it throws `SERVER_ADD_FAILED`,
counts no attempt (the entry stays registered with counter 0 and status
`error`), and schedules no reconnect. -/
theorem addServer_transient_hard_failure (gs : GatewayState) (name : String)
    (cfg : ServerConfig) (env : ConnectEnv) (msg : String)
    (retry : Option (List Tool)) (tt : TransportType)
    (habs : alGet gs.servers name = none)
    (hout : env.outcome = HandshakeOutcome.failed msg retry)
    (hval : isValidationError msg = false)
    (htt : getTransportType cfg = Except.ok tt)
    (hurl : tt = TransportType.http → cfg.url.isSome = true ∧ env.urlParses = true) :
    (addServer gs name cfg env).2 =
      Except.error (GatewayFailure.serverAddFailed msg) ∧
    alGet (addServer gs name cfg env).1.servers name =
      some ({ initialServerState cfg with status := Status.error, lastError := some msg }) ∧
    alGet (addServer gs name cfg env).1.reconnectTimers name =
      alGet gs.reconnectTimers name :=
  addServer_transient_aux gs name cfg env msg retry tt habs hout hval htt hurl

/-- C4 witness: the concrete transient-failure add of `addFailEx`. -/
theorem addServer_transient_hard_failure_witness :
    (addServer gateway0 "s" cfgEx envFailEx).2 =
      Except.error (GatewayFailure.serverAddFailed "ECONNREFUSED") ∧
    alGet (addServer gateway0 "s" cfgEx envFailEx).1.servers "s" =
      some ({ initialServerState cfgEx with status := Status.error, lastError := some "ECONNREFUSED" }) ∧
    alGet (addServer gateway0 "s" cfgEx envFailEx).1.reconnectTimers "s" =
      alGet gateway0.reconnectTimers "s" :=
  addServer_transient_hard_failure gateway0 "s" cfgEx envFailEx "ECONNREFUSED" none
    TransportType.stdio (by decide) (by decide) (by decide) (by decide) (by decide)

/-- C5 counterexample: after connecting with one tool and then suffering an
unsolicited disconnect, the server is non-connected yet `getServerTools`
still reports the tool list fetched by the prior connection incarnation. -/
theorem stale_capabilities_counterexample :
    getServerTools gsConnEx "s" = Except.ok [toolEx] ∧
    (alGet gsDiscEx.servers "s").map ServerState.status = some Status.reconnecting ∧
    getServerTools gsDiscEx "s" = Except.ok [toolEx] := by decide

/-- C5 (amended): each successful (re)connect replaces the capability list
wholesale with the freshly fetched one, but a disconnect does NOT clear it:
both the unsolicited-close handler and a failed health probe leave the
previous incarnation's list in place, and `getServerTools` keeps returning
that list throughout the whole disconnected/reconnecting/error period — for
every trace of further events that neither removes the server nor
reconnects it successfully. -/
theorem capability_wholesale_and_retention (gs : GatewayState) (name : String)
    (cfg : ServerConfig) (env : ConnectEnv) (tools : List Tool)
    (st : ServerState) (msg : String) (cfg0 : ServerConfig) (es : List Event)
    (hout : env.outcome = HandshakeOutcome.ok tools)
    (hok : connectAttemptFails cfg env = false)
    (hs : alGet gs.servers name = some st) :
    (alGet (connectServer gs name cfg env).1.servers name).map ServerState.tools =
      some tools ∧
    getServerTools (onClose gs name) name = Except.ok st.tools ∧
    getServerTools (healthCheckFailed gs name msg) name = Except.ok st.tools ∧
    (st.status ≠ Status.connected → st.config = cfg0 →
      (∀ e ∈ es, KeepsDown name cfg0 e) →
      getServerTools (run gs es) name = Except.ok st.tools) := by
  refine ⟨?_, ?_, ?_, ?_⟩
  · obtain ⟨_, h2, _⟩ := connectServer_ok_entry gs name cfg env tools hout hok
    rw [h2]
    rfl
  · obtain ⟨st', h1, h5⟩ := onClose_tools gs name st hs
    unfold getServerTools
    rw [h1]
    dsimp only
    rw [h5]
  · obtain ⟨st', h1, h5⟩ := healthCheckFailed_tools gs name msg st hs
    unfold getServerTools
    rw [h1]
    dsimp only
    rw [h5]
  · intro hdown hcfg hes
    obtain ⟨st', h1, _, h3, _⟩ :=
      downRetains_run gs name cfg0 st.tools es ⟨st, hs, hdown, rfl, hcfg⟩ hes
    unfold getServerTools
    rw [h1]
    dsimp only
    rw [h3]

/-- C5 witness: reconnecting replaces the list with the fetched one, while a
close, a failed probe, and a whole down-period trace (failed timer fire,
failed probe, another close) all keep the old list visible on the mid-backoff
server of `gsDiscEx`. -/
theorem capability_wholesale_and_retention_witness :
    (alGet (connectServer gsDiscEx "s" cfgEx envOkEx).1.servers "s").map ServerState.tools =
      some [toolEx] ∧
    getServerTools (onClose gsDiscEx "s") "s" = Except.ok stDiscEx.tools ∧
    getServerTools (healthCheckFailed gsDiscEx "s" "probe timeout") "s" =
      Except.ok stDiscEx.tools ∧
    getServerTools (run gsDiscEx [Event.fire "s" envFailEx, Event.healthFail "s" "probe timeout", Event.close "s"]) "s" =
      Except.ok stDiscEx.tools := by
  obtain ⟨w1, w2, w3, w4⟩ :=
    capability_wholesale_and_retention gsDiscEx "s" cfgEx envOkEx [toolEx] stDiscEx
      "probe timeout" cfgEx
      [Event.fire "s" envFailEx, Event.healthFail "s" "probe timeout", Event.close "s"]
      (by decide) (by decide) (by decide)
  refine ⟨w1, w2, w3, w4 (by decide) (by decide) ?_⟩
  intro e he
  simp only [List.mem_cons, List.not_mem_nil, or_false] at he
  rcases he with rfl | rfl | rfl
  · refine ⟨by decide, fun env' heq => ?_⟩
    injection heq with h1 h2
    subst h2
    decide
  · exact ⟨by decide, fun env' heq => Event.noConfusion heq⟩
  · exact ⟨by decide, fun env' heq => Event.noConfusion heq⟩

/-- C6: a handshake failing with a schema-validation-style error is a
degraded connect: the connect succeeds, the server ends `connected` with a
non-null advisory warning string recorded, and `getServerTools` returns the
best-effort (possibly empty) list — never an error. -/
theorem degraded_connect_behavior (gs : GatewayState) (name : String)
    (cfg : ServerConfig) (env : ConnectEnv) (msg : String)
    (retry : Option (List Tool))
    (hout : env.outcome = HandshakeOutcome.failed msg retry)
    (hval : isValidationError msg = true)
    (hok : connectAttemptFails cfg env = false) :
    (connectServer gs name cfg env).2 = Except.ok () ∧
    (∃ st, alGet (connectServer gs name cfg env).1.servers name = some st ∧
      st.status = Status.connected ∧
      st.validationWarning = some validationWarningMsg ∧
      st.tools = retry.getD []) ∧
    getServerTools (connectServer gs name cfg env).1 name =
      Except.ok (retry.getD []) := by
  obtain ⟨h1, h2, h3⟩ :=
    connectServer_degraded_entry gs name cfg env msg retry hout hval hok
  refine ⟨h1, ⟨_, h2, rfl, rfl, rfl⟩, ?_⟩
  unfold getServerTools
  rw [h2]
  rfl

/-- C6 witness: a Zod-style invalid_type handshake error still yields a
connected server with a warning and the best-effort tool list. -/
theorem degraded_connect_behavior_witness :
    (connectServer gateway0 "s" cfgEx envValEx).2 = Except.ok () ∧
    (∃ st, alGet (connectServer gateway0 "s" cfgEx envValEx).1.servers "s" = some st ∧
      st.status = Status.connected ∧
      st.validationWarning = some validationWarningMsg ∧
      st.tools = (some [toolEx]).getD []) ∧
    getServerTools (connectServer gateway0 "s" cfgEx envValEx).1 "s" =
      Except.ok ((some [toolEx]).getD []) :=
  degraded_connect_behavior gateway0 "s" cfgEx envValEx "ZodError: invalid_type"
    (some [toolEx]) (by decide) (by decide) (by decide)

/-- C7: for a connected server with counter 0 whose reconnect attempts all
fail, the unsolicited disconnect plus its 10 failed timer firings end in
status `error` with no pending timer, and no later event short of removing
the server ever arms an 11th timer; below the cap each failed firing
re-arms the next attempt. -/
theorem reconnect_exhaustion_terminality (gs : GatewayState) (name : String)
    (st : ServerState) (env : ConnectEnv) (es : List Event)
    (hs : alGet gs.servers name = some st)
    (_hst : st.status = Status.connected)
    (hc0 : st.reconnectAttempts = 0)
    (hf : connectAttemptFails st.config env = true)
    (hes : ∀ e ∈ es, e ≠ Event.remove name) :
    (∃ st', alGet (run gs (Event.close name :: List.replicate 10 (Event.fire name env))).servers name = some st' ∧ st'.status = Status.error) ∧
    alGet (run gs (Event.close name :: List.replicate 10 (Event.fire name env))).reconnectTimers name = none ∧
    alGet (run (run gs (Event.close name :: List.replicate 10 (Event.fire name env))) es).reconnectTimers name = none ∧
    (∀ gs' c, PendingReconn gs' name st.config c → c < MAX_RECONNECT_ATTEMPTS →
      PendingReconn (timerFire gs' name env) name st.config (c + 1)) := by
  have hp : PendingReconn (onClose gs name) name st.config 1 := by
    have h := onClose_schedules gs name st hs (by rw [hc0]; decide)
    rw [hc0] at h
    exact h
  have hterm :
      ErrorTerminal (run (onClose gs name) (List.replicate 10 (Event.fire name env))) name :=
    fires_to_terminal 10 (onClose gs name) name st.config 1 env hp hf
      (by decide) (by decide)
  rw [run_cons]
  have hstep : step gs (Event.close name) = onClose gs name := rfl
  rw [hstep]
  obtain ⟨⟨st', e1, e2, _⟩, e4⟩ := id hterm
  refine ⟨⟨st', e1, e2⟩, e4, ?_, ?_⟩
  · obtain ⟨_, f4⟩ := errorTerminal_run _ name es hterm hes
    exact f4
  · intro gs' c hpc hlt
    exact (timerFire_fail_step gs' name st.config c env hpc hf).1 hlt

/-- C7 witness: the concrete connected server of `gsConnEx` with every
reconnect attempt refused. -/
theorem reconnect_exhaustion_terminality_witness :
    (∃ st', alGet (run gsConnEx (Event.close "s" :: List.replicate 10 (Event.fire "s" envFailEx))).servers "s" = some st' ∧ st'.status = Status.error) ∧
    alGet (run gsConnEx (Event.close "s" :: List.replicate 10 (Event.fire "s" envFailEx))).reconnectTimers "s" = none ∧
    alGet (run (run gsConnEx (Event.close "s" :: List.replicate 10 (Event.fire "s" envFailEx))) []).reconnectTimers "s" = none ∧
    (∀ gs' c, PendingReconn gs' "s" stConnEx.config c → c < MAX_RECONNECT_ATTEMPTS →
      PendingReconn (timerFire gs' "s" envFailEx) "s" stConnEx.config (c + 1)) :=
  reconnect_exhaustion_terminality gsConnEx "s" stConnEx envFailEx []
    (by decide) (by decide) (by decide) (by decide) (by simp)

/-- C8: a second `addServer` with an already-present name returns
`SERVER_ALREADY_EXISTS` leaving the whole gateway state (so the existing
entry) unchanged, and registry keys stay duplicate-free along every event
trace from the empty gateway, so at most one ConnectionState exists per
name at any time. -/
theorem registry_uniqueness (gs : GatewayState) (name : String)
    (cfg : ServerConfig) (env : ConnectEnv) (st : ServerState) (es : List Event)
    (hs : alGet gs.servers name = some st) :
    addServer gs name cfg env =
      (gs, Except.error (GatewayFailure.serverAlreadyExists name)) ∧
    (keysNodup gs → keysNodup (run gs es)) ∧
    keysNodup (run gateway0 es) :=
  ⟨addServer_present gs name cfg env st hs,
   fun h => keysNodup_run gs es h,
   keysNodup_run gateway0 es (by simp [keysNodup, gateway0])⟩

/-- C8 witness: re-adding the already-present `"s"` of `gsConnEx`. -/
theorem registry_uniqueness_witness :
    addServer gsConnEx "s" cfgEx envOkEx =
      (gsConnEx, Except.error (GatewayFailure.serverAlreadyExists "s")) ∧
    (keysNodup gsConnEx → keysNodup (run gsConnEx [Event.add "s" cfgEx envOkEx])) ∧
    keysNodup (run gateway0 [Event.add "s" cfgEx envOkEx]) :=
  registry_uniqueness gsConnEx "s" cfgEx envOkEx stConnEx
    [Event.add "s" cfgEx envOkEx] (by decide)

/-- C9: after `removeServer name` succeeds no reconnect timer for `name` is
pending, and none is ever armed again along any trace that does not re-add
the name (so no timer for it can ever fire); a subsequent `addServer` of
the same name starts a brand-new entry with retry counter 0. -/
theorem remove_cleanup_fresh_counter (gs : GatewayState) (name : String)
    (st : ServerState) (es : List Event) (cfg : ServerConfig) (env : ConnectEnv)
    (tt : TransportType)
    (hs : alGet gs.servers name = some st)
    (hes : ∀ e ∈ es, ∀ cfg' env', e ≠ Event.add name cfg' env')
    (htt : getTransportType cfg = Except.ok tt) :
    (removeServer gs name).2 = Except.ok () ∧
    alGet (removeServer gs name).1.reconnectTimers name = none ∧
    alGet (run (removeServer gs name).1 es).reconnectTimers name = none ∧
    (∃ st', alGet (addServer (run (removeServer gs name).1 es) name cfg env).1.servers name = some st' ∧
      st'.reconnectAttempts = 0) := by
  obtain ⟨r1, r2, r3⟩ := removeServer_present gs name st hs
  have habs : Absent (removeServer gs name).1 name := ⟨r2, r3⟩
  have habs' := absent_run (removeServer gs name).1 name es habs hes
  exact ⟨r1, r3, habs'.2,
    addServer_absent_counter (run (removeServer gs name).1 es) name cfg env tt
      habs'.1 htt⟩

/-- C9 witness: removing `"s"` mid-backoff, letting the (now cancelled)
timer tick do nothing, and re-adding it with a fresh counter. -/
theorem remove_cleanup_fresh_counter_witness :
    (removeServer gsDiscEx "s").2 = Except.ok () ∧
    alGet (removeServer gsDiscEx "s").1.reconnectTimers "s" = none ∧
    alGet (run (removeServer gsDiscEx "s").1 [Event.fire "s" envOkEx]).reconnectTimers "s" = none ∧
    (∃ st', alGet (addServer (run (removeServer gsDiscEx "s").1 [Event.fire "s" envOkEx]) "s" cfgEx envOkEx).1.servers "s" = some st' ∧
      st'.reconnectAttempts = 0) := by
  refine remove_cleanup_fresh_counter gsDiscEx "s" stDiscEx [Event.fire "s" envOkEx]
    cfgEx envOkEx TransportType.stdio (by decide) ?_ (by decide)
  intro e he cfg' env'
  rw [List.mem_singleton] at he
  subst he
  exact fun hcontra => Event.noConfusion hcontra

/-- C10: a failed transient add is not atomic with respect to the registry:
`addServer` throws `SERVER_ADD_FAILED` yet leaves a registered entry in
status `error` with counter 0 and no reconnect scheduled; every subsequent
`addServer` of the same name then fails with `SERVER_ALREADY_EXISTS`
(leaving the state unchanged) until `removeServer` succeeds and deletes the
entry. -/
theorem addServer_nonatomic_failure (gs : GatewayState) (name : String)
    (cfg : ServerConfig) (env : ConnectEnv) (msg : String)
    (retry : Option (List Tool)) (tt : TransportType)
    (cfg2 : ServerConfig) (env2 : ConnectEnv)
    (habs : alGet gs.servers name = none)
    (hout : env.outcome = HandshakeOutcome.failed msg retry)
    (hval : isValidationError msg = false)
    (htt : getTransportType cfg = Except.ok tt)
    (hurl : tt = TransportType.http → cfg.url.isSome = true ∧ env.urlParses = true) :
    (addServer gs name cfg env).2 =
      Except.error (GatewayFailure.serverAddFailed msg) ∧
    (∃ st, alGet (addServer gs name cfg env).1.servers name = some st ∧
      st.status = Status.error ∧ st.reconnectAttempts = 0) ∧
    alGet (addServer gs name cfg env).1.reconnectTimers name =
      alGet gs.reconnectTimers name ∧
    addServer (addServer gs name cfg env).1 name cfg2 env2 =
      ((addServer gs name cfg env).1,
        Except.error (GatewayFailure.serverAlreadyExists name)) ∧
    (removeServer (addServer gs name cfg env).1 name).2 = Except.ok () ∧
    alGet (removeServer (addServer gs name cfg env).1 name).1.servers name = none := by
  obtain ⟨r1, r2, r3⟩ :=
    addServer_transient_aux gs name cfg env msg retry tt habs hout hval htt hurl
  obtain ⟨q1, q2, q3⟩ := removeServer_present (addServer gs name cfg env).1 name _ r2
  exact ⟨r1, ⟨_, r2, rfl, rfl⟩, r3,
    addServer_present (addServer gs name cfg env).1 name cfg2 env2 _ r2, q1, q2⟩

/-- C10 witness: the concrete failed add of `"s"`, its rejected re-add, and
its successful removal. -/
theorem addServer_nonatomic_failure_witness :
    (addServer gateway0 "s" cfgEx envFailEx).2 =
      Except.error (GatewayFailure.serverAddFailed "ECONNREFUSED") ∧
    (∃ st, alGet (addServer gateway0 "s" cfgEx envFailEx).1.servers "s" = some st ∧
      st.status = Status.error ∧ st.reconnectAttempts = 0) ∧
    alGet (addServer gateway0 "s" cfgEx envFailEx).1.reconnectTimers "s" =
      alGet gateway0.reconnectTimers "s" ∧
    addServer (addServer gateway0 "s" cfgEx envFailEx).1 "s" cfgEx envOkEx =
      ((addServer gateway0 "s" cfgEx envFailEx).1,
        Except.error (GatewayFailure.serverAlreadyExists "s")) ∧
    (removeServer (addServer gateway0 "s" cfgEx envFailEx).1 "s").2 = Except.ok () ∧
    alGet (removeServer (addServer gateway0 "s" cfgEx envFailEx).1 "s").1.servers "s" = none :=
  addServer_nonatomic_failure gateway0 "s" cfgEx envFailEx "ECONNREFUSED" none
    TransportType.stdio cfgEx envOkEx (by decide) (by decide) (by decide)
    (by decide) (by decide)

end Gw
